import Mathlib

/-!
# The qemu lifecycle client of proxmox-operator

Shallow embedding of `cmd/proxmox/qemu.go` (the lifecycle client) and of the
status constants and resource types of `cmd/kubernetes/api/v1alpha1/qemu.go`.

* Go strings are `String`; `fmt.Sprintf` with the verbs `%s` and `%d` is string
  concatenation, `%d` of an `int` being its decimal numeral.
* A Go `error` result is `Option GoError` (`none` is the nil error).
* The cluster transport (`GetReq`, `PostReq`, `PutReq`, `DeleteReq`) and
  `json.Unmarshal` are collaborators whose outcomes are parameters; every
  transport call is recorded on a wire log that is passed through explicitly.
* Calls to the logger (`log.Infof`, `log.Debugf`, `log.Debug`) touch neither the
  results nor the transport and are left out.
-/

namespace Proxmox

/-! ## Values, errors and documents -/

/-- Go error values: those built by `fmt.Errorf` inside this package, and those
handed over by a collaborator (the transport or the JSON decoder). -/
inductive GoError where
  | errorf (msg : String)
  | upstream (descr : String)
  deriving DecidableEq, Repr

/-- What an `interface{}` value of a config document can hold. A `float64` is
carried as its text under the verb `%v`; a structured value (slice or map) as
its text under the verb `%d`, which `fmt` builds element by element. -/
inductive Value where
  | null
  | bool (b : Bool)
  | int (n : Int)
  | float64 (text : String)
  | str (s : String)
  | structured (text : String)
  deriving DecidableEq, Repr

/-- The verb `%d` of `fmt.Sprintf` applied to an `int`. -/
def verbD (n : Int) : String := toString n

/-- The verb `%d` of `fmt.Sprintf` applied to an `interface{}` operand: an
integer prints as its decimal numeral, any other scalar as the bad-verb
marker of `fmt`. -/
def Value.verbD : Value → String
  | .int n => Proxmox.verbD n
  | .null => "%!d(<nil>)"
  | .bool b => "%!d(bool=" ++ (if b then "true" else "false") ++ ")"
  | .float64 text => "%!d(float64=" ++ text ++ ")"
  | .str s => "%!d(string=" ++ s ++ ")"
  | .structured text => text

/-- Go type `QemuConfig map[string]interface{}`: the nil map, or a map given by
its entries (the first entry of a key is the one the map holds). -/
inductive QemuConfig where
  | nil
  | doc (entries : List (String × Value))
  deriving DecidableEq, Repr

/-- The entries of a config document; the nil map has none. -/
def QemuConfig.entries : QemuConfig → List (String × Value)
  | .nil => []
  | .doc es => es

/-- The two-result index expression `v, isExist := qemuConfig[key]`. -/
def QemuConfig.get (qemuConfig : QemuConfig) (key : String) : Option Value :=
  qemuConfig.entries.lookup key

/-- The one-result index expression `qemuConfig[key]`: the nil interface when
the key is absent. -/
def QemuConfig.index (qemuConfig : QemuConfig) (key : String) : Value :=
  (qemuConfig.get key).getD Value.null

/-- The keys a config document contains. -/
def QemuConfig.keys (qemuConfig : QemuConfig) : List String :=
  qemuConfig.entries.map Prod.fst

/-- Go type `QemuConfigResp`. -/
structure QemuConfigResp where
  Data : QemuConfig
  deriving DecidableEq, Repr

/-- Go type `QemuPendingConfig`. -/
structure QemuPendingConfig where
  Key : String
  Value : Proxmox.Value
  Pending : Proxmox.Value
  deriving DecidableEq, Repr

/-- Go type `QemuPendingConfigResp`; a slice is a list (nil and empty slices
are both the empty list). -/
structure QemuPendingConfigResp where
  Data : List QemuPendingConfig
  deriving DecidableEq, Repr

/-- The anonymous struct `Ha` inside `QemuStatus.Data`. -/
structure QemuStatusHa where
  Managed : Int
  deriving DecidableEq, Repr

/-- The anonymous struct `Data` of `QemuStatus`; the `float64` field `CPU` is
carried as its text, the zero value being `0`. -/
structure QemuStatusData where
  Maxdisk : Int
  Diskread : Int
  Maxmem : Int
  CPU : String
  BalloonMin : Int
  Disk : Int
  Qmpstatus : String
  Uptime : Int
  Netin : Int
  Shares : Int
  Ha : QemuStatusHa
  Diskwrite : Int
  Vmid : Int
  Mem : Int
  Status : String
  Netout : Int
  Cpus : Int
  Name : String
  deriving DecidableEq, Repr

/-- Go type `QemuStatus`. -/
structure QemuStatus where
  Data : QemuStatusData
  deriving DecidableEq, Repr

/-- The composite literal `QemuStatus{}`: every field at its zero value. -/
def QemuStatus.zero : QemuStatus :=
  ⟨⟨0, 0, 0, "0", 0, 0, "", 0, 0, 0, ⟨0⟩, 0, 0, 0, "", 0, 0, ""⟩⟩

def STATUS_RUNNING : String := "running"
def STATUS_STOPPED : String := "stopped"

/-! ## The transport -/

/-- Raw response bytes. -/
abbrev Bytes := List UInt8

/-- The `data interface{}` argument of a transport request: a config document,
a pre-formatted text, or nothing (`DeleteReq` takes no data). -/
inductive Payload where
  | absent
  | text (s : String)
  | config (c : QemuConfig)
  deriving DecidableEq, Repr

inductive Method where
  | GET
  | POST
  | PUT
  | DELETE
  deriving DecidableEq, Repr

/-- One request as the transport receives it. -/
structure Request where
  method : Method
  apiPath : String
  data : Payload
  deriving DecidableEq, Repr

/-- The requests the transport has received so far, oldest first. -/
abbrev Wire := List Request

/-- Modelled from the spec: the Cluster Transport, whose source (`Cluster`
and its request methods) is not part of the files at hand. The spec gives its
interface as `GET(path, queryBody) → bytes|error`, `POST(path, body) → error`,
`PUT(path, body) → error`, `DELETE(path) → error`; what each request answers is
a field here. -/
structure Cluster where
  name : String
  get : String → Payload → Except GoError Bytes
  post : String → Payload → Option GoError
  put : String → Payload → Option GoError
  delete : String → Option GoError

/-- Modelled from the spec: `GetReq` of the Cluster Transport; it answers with
bytes (`nil` bytes on error) and an error, and the request goes on the wire. -/
def Cluster.GetReq (cluster : Cluster) (apiPath : String) (data : Payload) (wire : Wire) :
    (Bytes × Option GoError) × Wire :=
  (match cluster.get apiPath data with
    | .ok bytes => (bytes, none)
    | .error err => ([], some err),
   wire ++ [⟨Method.GET, apiPath, data⟩])

/-- Modelled from the spec: `PostReq` of the Cluster Transport. -/
def Cluster.PostReq (cluster : Cluster) (apiPath : String) (data : Payload) (wire : Wire) :
    Option GoError × Wire :=
  (cluster.post apiPath data, wire ++ [⟨Method.POST, apiPath, data⟩])

/-- Modelled from the spec: `PutReq` of the Cluster Transport. -/
def Cluster.PutReq (cluster : Cluster) (apiPath : String) (data : Payload) (wire : Wire) :
    Option GoError × Wire :=
  (cluster.put apiPath data, wire ++ [⟨Method.PUT, apiPath, data⟩])

/-- Modelled from the spec: `DeleteReq` of the Cluster Transport. -/
def Cluster.DeleteReq (cluster : Cluster) (apiPath : String) (wire : Wire) :
    Option GoError × Wire :=
  (cluster.delete apiPath, wire ++ [⟨Method.DELETE, apiPath, Payload.absent⟩])

/-- Modelled from the spec: the node a client is bound to (`Node` is declared
outside the files at hand; the client reads `node.name` and `node.cluster`). -/
structure Node where
  name : String
  cluster : Cluster

/-- Modelled from the spec: the Placement `{cluster, node, vmId}` (`QemuPlace`
is declared outside the files at hand). -/
structure QemuPlace where
  Cluster : String
  Node : String
  VmId : Int
  deriving DecidableEq, Repr

/-- Go type `Qemu`. -/
structure Qemu where
  node : Node

/-- The outcomes of `json.Unmarshal` into the three response types: the decoded
value, or the decoder's error. -/
structure Json where
  unmarshalConfig : Bytes → Except GoError QemuConfigResp
  unmarshalPending : Bytes → Except GoError QemuPendingConfigResp
  unmarshalStatus : Bytes → Except GoError QemuStatus

/-! ## The lifecycle operations -/

def checkQemuConfig (qemuConfig : QemuConfig) : Option GoError :=
  match qemuConfig.get "node" with
  | none => some (GoError.errorf "no node name in qemu config")
  | some _ =>
    match qemuConfig.get "vmid" with
    | none => some (GoError.errorf "no vmid in qemu config")
    | some _ => none

def Qemu.Create (qemu : Qemu) (qemuConfig : QemuConfig) (wire : Wire) : Option GoError × Wire :=
  match checkQemuConfig qemuConfig with
  | some err => (some err, wire)
  | none =>
    let apiPath := "/nodes/" ++ qemu.node.name ++ "/qemu"
    match qemu.node.cluster.PostReq apiPath (Payload.config qemuConfig) wire with
    | (some err, wire1) => (some err, wire1)
    | (none, wire1) => (none, wire1)

def Qemu.Clone (qemu : Qemu) (name : String) (templatePlace targetPlace : QemuPlace)
    (wire : Wire) : Option GoError × Wire :=
  let data := "\x7b\"vmid\":\"" ++ verbD templatePlace.VmId ++ "\", \"newid\":\""
    ++ verbD targetPlace.VmId ++ "\", \"name\":\"" ++ name ++ "\", \"target\":\""
    ++ targetPlace.Node ++ "\", \"full\":true\x7d"
  let apiPath := "/nodes/" ++ templatePlace.Node ++ "/qemu/" ++ verbD templatePlace.VmId
    ++ "/clone"
  match qemu.node.cluster.PostReq apiPath (Payload.text data) wire with
  | (some err, wire1) => (some err, wire1)
  | (none, wire1) => (none, wire1)

def Qemu.SetConfig (qemu : Qemu) (qemuConfig : QemuConfig) (wire : Wire) :
    Option GoError × Wire :=
  match checkQemuConfig qemuConfig with
  | some err => (some err, wire)
  | none =>
    let apiPath := "/nodes/" ++ qemu.node.name ++ "/qemu/"
      ++ (qemuConfig.index "vmid").verbD ++ "/config"
    match qemu.node.cluster.PostReq apiPath (Payload.config qemuConfig) wire with
    | (some err, wire1) => (some err, wire1)
    | (none, wire1) => (none, wire1)

def Qemu.GetConfig (qemu : Qemu) (json : Json) (vmId : Int) (wire : Wire) :
    (QemuConfig × Option GoError) × Wire :=
  let apiPath := "/nodes/" ++ qemu.node.name ++ "/qemu/" ++ verbD vmId ++ "/config"
  let data := "\x7b\"node\":\"" ++ qemu.node.name ++ "\", \"vmid\":\"" ++ verbD vmId ++ "\"\x7d"
  match qemu.node.cluster.GetReq apiPath (Payload.text data) wire with
  | ((_, some err), wire1) => ((QemuConfig.nil, some err), wire1)
  | ((qemuConfigData, none), wire1) =>
    match json.unmarshalConfig qemuConfigData with
    | .error err => ((QemuConfig.nil, some err), wire1)
    | .ok qemuConfig => ((qemuConfig.Data, none), wire1)

def Qemu.GetPendingConfig (qemu : Qemu) (json : Json) (vmId : Int) (wire : Wire) :
    (List QemuPendingConfig × Option GoError) × Wire :=
  let apiPath := "/nodes/" ++ qemu.node.name ++ "/qemu/" ++ verbD vmId ++ "/pending"
  let data := "\x7b\"node\":\"" ++ qemu.node.name ++ "\", \"vmid\":\"" ++ verbD vmId ++ "\"\x7d"
  match qemu.node.cluster.GetReq apiPath (Payload.text data) wire with
  | ((_, some err), wire1) => (([], some err), wire1)
  | ((qemuConfigData, none), wire1) =>
    match json.unmarshalPending qemuConfigData with
    | .error err => (([], some err), wire1)
    | .ok pendingConfig => ((pendingConfig.Data, none), wire1)

def Qemu.Delete (qemu : Qemu) (vmId : Int) (wire : Wire) : Option GoError × Wire :=
  let apiPath := "/nodes/" ++ qemu.node.name ++ "/qemu/" ++ verbD vmId
  match qemu.node.cluster.DeleteReq apiPath wire with
  | (some err, wire1) => (some err, wire1)
  | (none, wire1) => (none, wire1)

def Qemu.Start (qemu : Qemu) (vmId : Int) (wire : Wire) : Option GoError × Wire :=
  let data := "\x7b\"node\":\"" ++ qemu.node.name ++ "\", \"vmid\":\"" ++ verbD vmId ++ "\"\x7d"
  let apiPath := "/nodes/" ++ qemu.node.name ++ "/qemu/" ++ verbD vmId ++ "/status/start"
  match qemu.node.cluster.PostReq apiPath (Payload.text data) wire with
  | (some err, wire1) => (some err, wire1)
  | (none, wire1) => (none, wire1)

def Qemu.Stop (qemu : Qemu) (vmId : Int) (wire : Wire) : Option GoError × Wire :=
  let data := "\x7b\"node\":\"" ++ qemu.node.name ++ "\", \"vmid\":\"" ++ verbD vmId ++ "\"\x7d"
  let apiPath := "/nodes/" ++ qemu.node.name ++ "/qemu/" ++ verbD vmId ++ "/status/stop"
  match qemu.node.cluster.PostReq apiPath (Payload.text data) wire with
  | (some err, wire1) => (some err, wire1)
  | (none, wire1) => (none, wire1)

def Qemu.GetStatus (qemu : Qemu) (json : Json) (vmId : Int) (wire : Wire) :
    (QemuStatus × Option GoError) × Wire :=
  let apiPath := "/nodes/" ++ qemu.node.name ++ "/qemu/" ++ verbD vmId ++ "/status/current"
  let data := "\x7b\"node\":\"" ++ qemu.node.name ++ "\", \"vmid\":\"" ++ verbD vmId ++ "\"\x7d"
  match qemu.node.cluster.GetReq apiPath (Payload.text data) wire with
  | ((_, some err), wire1) => ((QemuStatus.zero, some err), wire1)
  | ((qemuStatusData, none), wire1) =>
    match json.unmarshalStatus qemuStatusData with
    | .error err => ((QemuStatus.zero, some err), wire1)
    | .ok qemuStatus => ((qemuStatus, none), wire1)

def Qemu.Resize (qemu : Qemu) (vmId : Int) (disk size : String) (wire : Wire) :
    Option GoError × Wire :=
  let data := "\x7b\"node\":\"" ++ qemu.node.name ++ "\", \"vmid\":\"" ++ verbD vmId
    ++ "\", \"disk\":\"" ++ disk ++ "\", \"size\":\"" ++ size ++ "\"\x7d"
  let apiPath := "/nodes/" ++ qemu.node.name ++ "/qemu/" ++ verbD vmId ++ "/resize"
  match qemu.node.cluster.PutReq apiPath (Payload.text data) wire with
  | (some err, wire1) => (some err, wire1)
  | (none, wire1) => (none, wire1)

end Proxmox

/-! ## The custom resource: status taxonomy and desired spec -/

namespace V1alpha1

def STATUS_QEMU_EMPTY : String := ""
def STATUS_QEMU_SYNCED : String := "SYNCED"
def STATUS_QEMU_OUT_OF_SYNC : String := "OUT OF SYNC"
def STATUS_QEMU_PENDING : String := "PENDING"
def STATUS_QEMU_CLONING : String := "CLONING"
def STATUS_QEMU_DELETING : String := "DELETING"
def STATUS_QEMU_UNKNOWN : String := "UNKNOWN"

def STATUS_POWER_ON : String := "ON"
def STATUS_POWER_OFF : String := "OFF"
def STATUS_POWER_UNKNOWN : String := "UNKNOWN"

/-- Go type `QemuCPU`; its field `Type` is `Type_` here, `Type` being reserved. -/
structure QemuCPU where
  Cores : Int
  Sockets : Int
  Type_ : String
  deriving DecidableEq, Repr

/-- Go type `QemuDisk`. -/
structure QemuDisk where
  Size : String
  Storage : String
  deriving DecidableEq, Repr

/-- Go type `QemuMemory`. -/
structure QemuMemory where
  Balloon : Int
  Size : Int
  deriving DecidableEq, Repr

/-- Go type `QemuNetwork`. -/
structure QemuNetwork where
  Bridge : String
  Mac : String
  Model : String
  Tag : Int
  deriving DecidableEq, Repr

/-- Go type `QemuSpec`; maps are lists of entries, slices are lists. -/
structure QemuSpec where
  Autostart : Bool
  Autostop : Bool
  Cluster : String
  Node : String
  Pool : String
  Clone : String
  AntiAffinity : String
  VmId : Int
  CPU : QemuCPU
  Memory : QemuMemory
  Disk : List (String × QemuDisk)
  Network : List (String × QemuNetwork)
  Options : List (String × Proxmox.Value)
  Tags : List String
  deriving DecidableEq, Repr

/-- Modelled from the spec: the sync-status part of the Status Projection of
section 4.2, whose source (the reconciler) is not part of the files at hand. It
is a function of the desired spec, of what `GetConfig`, `GetPendingConfig` and
`GetStatus` returned for the target id (value and error), and of the last known
status; `GetConfig` is asked for the target id, so an answer without error is
the config of the target id. The rules, under the numbers the spec gives them
and in the order they are tried:
1. while the last known status is `PENDING` or `CLONING` and `GetConfig` has
   not succeeded, the status stays as it is;
4. any failed retrieval gives `UNKNOWN`;
2. a non-empty pending list gives `OUT OF SYNC`;
3. otherwise the fields the desired spec controls are compared with the applied
   config: a match gives `SYNCED`, a mismatch `OUT OF SYNC`.
The spec does not fix the key naming of the comparison of rule 3, which is the
parameter `matchesSpec`. -/
def projectStatus (matchesSpec : QemuSpec → Proxmox.QemuConfig → Bool) (desired : QemuSpec)
    (applied : Proxmox.QemuConfig × Option Proxmox.GoError)
    (pending : List Proxmox.QemuPendingConfig × Option Proxmox.GoError)
    (snapshot : Proxmox.QemuStatus × Option Proxmox.GoError) (last : String) : String :=
  if (last = STATUS_QEMU_PENDING ∨ last = STATUS_QEMU_CLONING) ∧ applied.2.isSome then last
  else if applied.2.isSome ∨ pending.2.isSome ∨ snapshot.2.isSome then STATUS_QEMU_UNKNOWN
  else if pending.1 ≠ [] then STATUS_QEMU_OUT_OF_SYNC
  else if matchesSpec desired applied.1 then STATUS_QEMU_SYNCED
  else STATUS_QEMU_OUT_OF_SYNC

end V1alpha1

/-! ## Reading the wire, and concrete inputs -/

namespace Proxmox

/-- How the transport answers a request, read off the request itself: the
error a `PostReq`, `PutReq`, `DeleteReq` or `GetReq` with this path and data
returns. -/
def Cluster.errorOf (cluster : Cluster) (r : Request) : Option GoError :=
  match r.method with
  | .POST => cluster.post r.apiPath r.data
  | .PUT => cluster.put r.apiPath r.data
  | .DELETE => cluster.delete r.apiPath
  | .GET =>
    match cluster.get r.apiPath r.data with
    | .ok _ => none
    | .error err => some err

/-- A transport that accepts every request and answers a GET with no bytes. -/
def acceptAll : Cluster :=
  ⟨"main", fun _ _ => .ok [], fun _ _ => none, fun _ _ => none, fun _ => none⟩

/-- A transport that refuses every request with one and the same error. -/
def refuseAll : Cluster :=
  ⟨"main", fun _ _ => .error (GoError.upstream "500 Internal Server Error"),
    fun _ _ => some (GoError.upstream "500 Internal Server Error"),
    fun _ _ => some (GoError.upstream "500 Internal Server Error"),
    fun _ => some (GoError.upstream "500 Internal Server Error")⟩

/-- A client bound to node `pve1` of an accepting cluster. -/
def onPve1 : Qemu := ⟨⟨"pve1", acceptAll⟩⟩

/-- A client bound to node `pve1` of a refusing cluster. -/
def onPve1Refused : Qemu := ⟨⟨"pve1", refuseAll⟩⟩

/-- A decoder that rejects every input. -/
def rejectAll : Json :=
  ⟨fun _ => .error (GoError.upstream "unexpected end of JSON input"),
    fun _ => .error (GoError.upstream "unexpected end of JSON input"),
    fun _ => .error (GoError.upstream "unexpected end of JSON input")⟩

end Proxmox

namespace V1alpha1

/-- A desired spec: two cores, 4096 MiB, one disk, on node `pve1`. -/
def sampleSpec : QemuSpec :=
  ⟨true, false, "main", "pve1", "", "", "", 100, ⟨2, 1, "host"⟩, ⟨0, 4096⟩,
    [("scsi0", ⟨"32G", "local-lvm"⟩)], [], [], []⟩

/-- An applied config document with the values of `sampleSpec`. -/
def sampleApplied : Proxmox.QemuConfig :=
  Proxmox.QemuConfig.doc [("cores", Proxmox.Value.int 2), ("sockets", Proxmox.Value.int 1),
    ("cpu", Proxmox.Value.str "host"), ("memory", Proxmox.Value.int 4096),
    ("scsi0", Proxmox.Value.str "local-lvm:vm-100-disk-0,size=32G")]

end V1alpha1

/-! ## Theorems -/

namespace Proxmox

theorem lookup_eq_none_iff_not_mem_keys (es : List (String × Value)) (key : String) :
    es.lookup key = none ↔ key ∉ es.map Prod.fst := by
  induction es with
  | nil => simp
  | cons e es ih =>
    obtain ⟨k, v⟩ := e
    by_cases hk : key = k
    · subst hk
      simp [List.lookup]
    · have hne : (key == k) = false := by simpa using hk
      simp [List.lookup, hne, ih, hk]

theorem get_eq_none_iff (qemuConfig : QemuConfig) (key : String) :
    qemuConfig.get key = none ↔ key ∉ qemuConfig.keys := by
  unfold QemuConfig.get QemuConfig.keys
  exact lookup_eq_none_iff_not_mem_keys _ _

theorem get_isSome_iff (qemuConfig : QemuConfig) (key : String) :
    (∃ v, qemuConfig.get key = some v) ↔ key ∈ qemuConfig.keys := by
  have h := get_eq_none_iff qemuConfig key
  cases hg : qemuConfig.get key with
  | none => simp [h.mp hg]
  | some v =>
    have : ¬ (key ∉ qemuConfig.keys) := fun hn => by
      rw [h.mpr hn] at hg
      cases hg
    simpa using this

theorem checkQemuConfig_eq (qemuConfig : QemuConfig) :
    checkQemuConfig qemuConfig =
      if "node" ∈ qemuConfig.keys then
        if "vmid" ∈ qemuConfig.keys then none
        else some (GoError.errorf "no vmid in qemu config")
      else some (GoError.errorf "no node name in qemu config") := by
  unfold checkQemuConfig
  cases hn : qemuConfig.get "node" with
  | none =>
    have := (get_eq_none_iff qemuConfig "node").mp hn
    simp [this]
  | some v =>
    have hmem : "node" ∈ qemuConfig.keys := (get_isSome_iff qemuConfig "node").mp ⟨v, hn⟩
    cases hv : qemuConfig.get "vmid" with
    | none =>
      have := (get_eq_none_iff qemuConfig "vmid").mp hv
      simp [hmem, this]
    | some w =>
      have hmem2 : "vmid" ∈ qemuConfig.keys := (get_isSome_iff qemuConfig "vmid").mp ⟨w, hv⟩
      simp [hmem, hmem2]

/-- C10: `checkQemuConfig` depends only on key presence. It returns no error
exactly when both keys `node` and `vmid` are present, whatever values they hold
(null, empty string and zero included); it returns the missing-node error
exactly when `node` is absent (also when `vmid` is absent too), and the
missing-vmid error exactly when `node` is present and `vmid` is absent; two
documents that agree on the presence of these two keys get the same answer,
whatever other keys and values they hold. -/
theorem checkQemuConfig_key_presence (qemuConfig : QemuConfig) :
    (checkQemuConfig qemuConfig = none ↔
      "node" ∈ qemuConfig.keys ∧ "vmid" ∈ qemuConfig.keys) ∧
    (checkQemuConfig qemuConfig = some (GoError.errorf "no node name in qemu config") ↔
      "node" ∉ qemuConfig.keys) ∧
    (checkQemuConfig qemuConfig = some (GoError.errorf "no vmid in qemu config") ↔
      "node" ∈ qemuConfig.keys ∧ "vmid" ∉ qemuConfig.keys) ∧
    (∀ (v w : Value) (before between after : List (String × Value)),
      checkQemuConfig (QemuConfig.doc (before ++ ("node", v) :: between ++ ("vmid", w) :: after))
        = none) ∧
    (∀ other : QemuConfig,
      ("node" ∈ other.keys ↔ "node" ∈ qemuConfig.keys) →
      ("vmid" ∈ other.keys ↔ "vmid" ∈ qemuConfig.keys) →
      checkQemuConfig other = checkQemuConfig qemuConfig) := by
  refine ⟨?_, ?_, ?_, ?_, ?_⟩
  · rw [checkQemuConfig_eq]
    by_cases hn : "node" ∈ qemuConfig.keys <;> by_cases hv : "vmid" ∈ qemuConfig.keys <;>
      simp [hn, hv]
  · rw [checkQemuConfig_eq]
    by_cases hn : "node" ∈ qemuConfig.keys <;> by_cases hv : "vmid" ∈ qemuConfig.keys <;>
      simp [hn, hv]
  · rw [checkQemuConfig_eq]
    by_cases hn : "node" ∈ qemuConfig.keys <;> by_cases hv : "vmid" ∈ qemuConfig.keys <;>
      simp [hn, hv]
  · intro v w before between after
    rw [checkQemuConfig_eq]
    simp [QemuConfig.keys, QemuConfig.entries]
  · intro other hn hv
    rw [checkQemuConfig_eq, checkQemuConfig_eq]
    simp only [hn, hv]

/-! ### Each operation, unfolded to its single transport call -/

theorem forward_eq (x : Option GoError × Wire) :
    (match x with
      | (some err, wire1) => (some err, wire1)
      | (none, wire1) => (none, wire1)) = x := by
  rcases x with ⟨_ | _, _⟩ <;> rfl

theorem create_valid (qemu : Qemu) (qemuConfig : QemuConfig) (wire : Wire)
    (h : checkQemuConfig qemuConfig = none) :
    qemu.Create qemuConfig wire =
      (qemu.node.cluster.post ("/nodes/" ++ qemu.node.name ++ "/qemu") (Payload.config qemuConfig),
       wire ++ [⟨Method.POST, "/nodes/" ++ qemu.node.name ++ "/qemu",
        Payload.config qemuConfig⟩]) := by
  simp only [Qemu.Create, h, forward_eq, Cluster.PostReq]

theorem create_invalid (qemu : Qemu) (qemuConfig : QemuConfig) (wire : Wire) (err : GoError)
    (h : checkQemuConfig qemuConfig = some err) :
    qemu.Create qemuConfig wire = (some err, wire) := by
  simp only [Qemu.Create, h]

theorem setConfig_valid (qemu : Qemu) (qemuConfig : QemuConfig) (wire : Wire)
    (h : checkQemuConfig qemuConfig = none) :
    qemu.SetConfig qemuConfig wire =
      (qemu.node.cluster.post
        ("/nodes/" ++ qemu.node.name ++ "/qemu/" ++ (qemuConfig.index "vmid").verbD ++ "/config")
        (Payload.config qemuConfig),
       wire ++ [⟨Method.POST,
        "/nodes/" ++ qemu.node.name ++ "/qemu/" ++ (qemuConfig.index "vmid").verbD ++ "/config",
        Payload.config qemuConfig⟩]) := by
  simp only [Qemu.SetConfig, h, forward_eq, Cluster.PostReq]

theorem setConfig_invalid (qemu : Qemu) (qemuConfig : QemuConfig) (wire : Wire) (err : GoError)
    (h : checkQemuConfig qemuConfig = some err) :
    qemu.SetConfig qemuConfig wire = (some err, wire) := by
  simp only [Qemu.SetConfig, h]

theorem clone_eq (qemu : Qemu) (name : String) (templatePlace targetPlace : QemuPlace)
    (wire : Wire) :
    qemu.Clone name templatePlace targetPlace wire =
      (qemu.node.cluster.post
        ("/nodes/" ++ templatePlace.Node ++ "/qemu/" ++ verbD templatePlace.VmId ++ "/clone")
        (Payload.text ("\x7b\"vmid\":\"" ++ verbD templatePlace.VmId ++ "\", \"newid\":\""
          ++ verbD targetPlace.VmId ++ "\", \"name\":\"" ++ name ++ "\", \"target\":\""
          ++ targetPlace.Node ++ "\", \"full\":true\x7d")),
       wire ++ [⟨Method.POST,
        "/nodes/" ++ templatePlace.Node ++ "/qemu/" ++ verbD templatePlace.VmId ++ "/clone",
        Payload.text ("\x7b\"vmid\":\"" ++ verbD templatePlace.VmId ++ "\", \"newid\":\""
          ++ verbD targetPlace.VmId ++ "\", \"name\":\"" ++ name ++ "\", \"target\":\""
          ++ targetPlace.Node ++ "\", \"full\":true\x7d")⟩]) := by
  simp only [Qemu.Clone, forward_eq, Cluster.PostReq]

theorem delete_eq (qemu : Qemu) (vmId : Int) (wire : Wire) :
    qemu.Delete vmId wire =
      (qemu.node.cluster.delete ("/nodes/" ++ qemu.node.name ++ "/qemu/" ++ verbD vmId),
       wire ++ [⟨Method.DELETE, "/nodes/" ++ qemu.node.name ++ "/qemu/" ++ verbD vmId,
        Payload.absent⟩]) := by
  simp only [Qemu.Delete, forward_eq, Cluster.DeleteReq]

theorem start_eq (qemu : Qemu) (vmId : Int) (wire : Wire) :
    qemu.Start vmId wire =
      (qemu.node.cluster.post
        ("/nodes/" ++ qemu.node.name ++ "/qemu/" ++ verbD vmId ++ "/status/start")
        (Payload.text ("\x7b\"node\":\"" ++ qemu.node.name ++ "\", \"vmid\":\"" ++ verbD vmId
          ++ "\"\x7d")),
       wire ++ [⟨Method.POST,
        "/nodes/" ++ qemu.node.name ++ "/qemu/" ++ verbD vmId ++ "/status/start",
        Payload.text ("\x7b\"node\":\"" ++ qemu.node.name ++ "\", \"vmid\":\"" ++ verbD vmId
          ++ "\"\x7d")⟩]) := by
  simp only [Qemu.Start, forward_eq, Cluster.PostReq]

theorem stop_eq (qemu : Qemu) (vmId : Int) (wire : Wire) :
    qemu.Stop vmId wire =
      (qemu.node.cluster.post
        ("/nodes/" ++ qemu.node.name ++ "/qemu/" ++ verbD vmId ++ "/status/stop")
        (Payload.text ("\x7b\"node\":\"" ++ qemu.node.name ++ "\", \"vmid\":\"" ++ verbD vmId
          ++ "\"\x7d")),
       wire ++ [⟨Method.POST,
        "/nodes/" ++ qemu.node.name ++ "/qemu/" ++ verbD vmId ++ "/status/stop",
        Payload.text ("\x7b\"node\":\"" ++ qemu.node.name ++ "\", \"vmid\":\"" ++ verbD vmId
          ++ "\"\x7d")⟩]) := by
  simp only [Qemu.Stop, forward_eq, Cluster.PostReq]

theorem resize_eq (qemu : Qemu) (vmId : Int) (disk size : String) (wire : Wire) :
    qemu.Resize vmId disk size wire =
      (qemu.node.cluster.put
        ("/nodes/" ++ qemu.node.name ++ "/qemu/" ++ verbD vmId ++ "/resize")
        (Payload.text ("\x7b\"node\":\"" ++ qemu.node.name ++ "\", \"vmid\":\"" ++ verbD vmId
          ++ "\", \"disk\":\"" ++ disk ++ "\", \"size\":\"" ++ size ++ "\"\x7d")),
       wire ++ [⟨Method.PUT,
        "/nodes/" ++ qemu.node.name ++ "/qemu/" ++ verbD vmId ++ "/resize",
        Payload.text ("\x7b\"node\":\"" ++ qemu.node.name ++ "\", \"vmid\":\"" ++ verbD vmId
          ++ "\", \"disk\":\"" ++ disk ++ "\", \"size\":\"" ++ size ++ "\"\x7d")⟩]) := by
  simp only [Qemu.Resize, forward_eq, Cluster.PutReq]

theorem getConfig_wire (qemu : Qemu) (json : Json) (vmId : Int) (wire : Wire) :
    (qemu.GetConfig json vmId wire).2 =
      wire ++ [⟨Method.GET, "/nodes/" ++ qemu.node.name ++ "/qemu/" ++ verbD vmId ++ "/config",
        Payload.text ("\x7b\"node\":\"" ++ qemu.node.name ++ "\", \"vmid\":\"" ++ verbD vmId
          ++ "\"\x7d")⟩] := by
  simp only [Qemu.GetConfig, Cluster.GetReq]
  split
  · rename_i h
    simp only [Prod.mk.injEq] at h
    exact h.2.symm
  · rename_i h
    simp only [Prod.mk.injEq] at h
    split <;> exact h.2.symm

theorem getPendingConfig_wire (qemu : Qemu) (json : Json) (vmId : Int) (wire : Wire) :
    (qemu.GetPendingConfig json vmId wire).2 =
      wire ++ [⟨Method.GET, "/nodes/" ++ qemu.node.name ++ "/qemu/" ++ verbD vmId ++ "/pending",
        Payload.text ("\x7b\"node\":\"" ++ qemu.node.name ++ "\", \"vmid\":\"" ++ verbD vmId
          ++ "\"\x7d")⟩] := by
  simp only [Qemu.GetPendingConfig, Cluster.GetReq]
  split
  · rename_i h
    simp only [Prod.mk.injEq] at h
    exact h.2.symm
  · rename_i h
    simp only [Prod.mk.injEq] at h
    split <;> exact h.2.symm

theorem getStatus_wire (qemu : Qemu) (json : Json) (vmId : Int) (wire : Wire) :
    (qemu.GetStatus json vmId wire).2 =
      wire ++ [⟨Method.GET,
        "/nodes/" ++ qemu.node.name ++ "/qemu/" ++ verbD vmId ++ "/status/current",
        Payload.text ("\x7b\"node\":\"" ++ qemu.node.name ++ "\", \"vmid\":\"" ++ verbD vmId
          ++ "\"\x7d")⟩] := by
  simp only [Qemu.GetStatus, Cluster.GetReq]
  split
  · rename_i h
    simp only [Prod.mk.injEq] at h
    exact h.2.symm
  · rename_i h
    simp only [Prod.mk.injEq] at h
    split <;> exact h.2.symm

/-! ### Validation comes before the transport -/

/-- C1: for every config document that lacks the key `node` or the key `vmid`,
`Create` and `SetConfig` both return the validation error of `checkQemuConfig`
(the missing-node or the missing-vmid error) and leave the wire as it was: no
request reaches the transport. -/
theorem create_setConfig_reject_before_transport (qemu : Qemu) (qemuConfig : QemuConfig)
    (wire : Wire) (h : "node" ∉ qemuConfig.keys ∨ "vmid" ∉ qemuConfig.keys) :
    ∃ err, checkQemuConfig qemuConfig = some err ∧
      (err = GoError.errorf "no node name in qemu config" ∨
        err = GoError.errorf "no vmid in qemu config") ∧
      qemu.Create qemuConfig wire = (some err, wire) ∧
      qemu.SetConfig qemuConfig wire = (some err, wire) := by
  have hc := checkQemuConfig_eq qemuConfig
  by_cases hn : "node" ∈ qemuConfig.keys
  · have hv : "vmid" ∉ qemuConfig.keys := by
      rcases h with h | h
      · exact absurd hn h
      · exact h
    simp only [hn, hv, if_true, if_false] at hc
    exact ⟨_, hc, Or.inr rfl, create_invalid qemu qemuConfig wire _ hc,
      setConfig_invalid qemu qemuConfig wire _ hc⟩
  · simp only [hn, if_false] at hc
    exact ⟨_, hc, Or.inl rfl, create_invalid qemu qemuConfig wire _ hc,
      setConfig_invalid qemu qemuConfig wire _ hc⟩

theorem create_setConfig_reject_before_transport_witness :
    ("node" ∉ (QemuConfig.doc [("vmid", Value.int 100)]).keys ∨
      "vmid" ∉ (QemuConfig.doc [("vmid", Value.int 100)]).keys) ∧
    ∃ err, checkQemuConfig (QemuConfig.doc [("vmid", Value.int 100)]) = some err ∧
      (err = GoError.errorf "no node name in qemu config" ∨
        err = GoError.errorf "no vmid in qemu config") ∧
      onPve1.Create (QemuConfig.doc [("vmid", Value.int 100)]) [] = (some err, []) ∧
      onPve1.SetConfig (QemuConfig.doc [("vmid", Value.int 100)]) [] = (some err, []) :=
  ⟨Or.inl (by decide),
    create_setConfig_reject_before_transport onPve1 (QemuConfig.doc [("vmid", Value.int 100)]) []
      (Or.inl (by decide))⟩

/-! ### One request per call -/

/-- C6: no operation retries. Every call of `Create`, `Clone`, `SetConfig`,
`GetConfig`, `GetPendingConfig`, `Delete`, `Start`, `Stop`, `GetStatus` or
`Resize` adds exactly one request to the wire, whatever the transport and the
decoder answer, except that `Create` and `SetConfig` add none when
`checkQemuConfig` returns an error; the method is POST for `Create`, `Clone`,
`SetConfig`, `Start` and `Stop`, GET for `GetConfig`, `GetPendingConfig` and
`GetStatus`, PUT for `Resize` and DELETE for `Delete`. -/
theorem one_request_per_call (qemu : Qemu) (json : Json) (name : String)
    (templatePlace targetPlace : QemuPlace) (vmId : Int) (disk size : String)
    (qemuConfig : QemuConfig) (wire : Wire) :
    (checkQemuConfig qemuConfig = none →
      ∃ r, (qemu.Create qemuConfig wire).2 = wire ++ [r] ∧ r.method = Method.POST) ∧
    (checkQemuConfig qemuConfig ≠ none → (qemu.Create qemuConfig wire).2 = wire) ∧
    (checkQemuConfig qemuConfig = none →
      ∃ r, (qemu.SetConfig qemuConfig wire).2 = wire ++ [r] ∧ r.method = Method.POST) ∧
    (checkQemuConfig qemuConfig ≠ none → (qemu.SetConfig qemuConfig wire).2 = wire) ∧
    (∃ r, (qemu.Clone name templatePlace targetPlace wire).2 = wire ++ [r] ∧
      r.method = Method.POST) ∧
    (∃ r, (qemu.Start vmId wire).2 = wire ++ [r] ∧ r.method = Method.POST) ∧
    (∃ r, (qemu.Stop vmId wire).2 = wire ++ [r] ∧ r.method = Method.POST) ∧
    (∃ r, (qemu.GetConfig json vmId wire).2 = wire ++ [r] ∧ r.method = Method.GET) ∧
    (∃ r, (qemu.GetPendingConfig json vmId wire).2 = wire ++ [r] ∧ r.method = Method.GET) ∧
    (∃ r, (qemu.GetStatus json vmId wire).2 = wire ++ [r] ∧ r.method = Method.GET) ∧
    (∃ r, (qemu.Resize vmId disk size wire).2 = wire ++ [r] ∧ r.method = Method.PUT) ∧
    (∃ r, (qemu.Delete vmId wire).2 = wire ++ [r] ∧ r.method = Method.DELETE) := by
  refine ⟨?_, ?_, ?_, ?_, ?_, ?_, ?_, ?_, ?_, ?_, ?_, ?_⟩
  · intro h
    exact ⟨_, by rw [create_valid qemu qemuConfig wire h], rfl⟩
  · intro h
    cases hc : checkQemuConfig qemuConfig with
    | none => exact absurd hc h
    | some err => rw [create_invalid qemu qemuConfig wire err hc]
  · intro h
    exact ⟨_, by rw [setConfig_valid qemu qemuConfig wire h], rfl⟩
  · intro h
    cases hc : checkQemuConfig qemuConfig with
    | none => exact absurd hc h
    | some err => rw [setConfig_invalid qemu qemuConfig wire err hc]
  · exact ⟨_, by rw [clone_eq], rfl⟩
  · exact ⟨_, by rw [start_eq], rfl⟩
  · exact ⟨_, by rw [stop_eq], rfl⟩
  · exact ⟨_, getConfig_wire qemu json vmId wire, rfl⟩
  · exact ⟨_, getPendingConfig_wire qemu json vmId wire, rfl⟩
  · exact ⟨_, getStatus_wire qemu json vmId wire, rfl⟩
  · exact ⟨_, by rw [resize_eq], rfl⟩
  · exact ⟨_, by rw [delete_eq], rfl⟩

/-! ### Errors are handed on unchanged -/

theorem checkQemuConfig_of_mem (qemuConfig : QemuConfig) (hnode : "node" ∈ qemuConfig.keys)
    (hvmid : "vmid" ∈ qemuConfig.keys) : checkQemuConfig qemuConfig = none := by
  rw [checkQemuConfig_eq]
  simp only [hnode, hvmid, if_true]

theorem answer_of_eq (cluster : Cluster) (x : Option GoError × Wire) (answer : Option GoError)
    (wire : Wire) (r : Request) (hx : x = (answer, wire ++ [r]))
    (ha : answer = cluster.errorOf r) : ∃ r, x = (cluster.errorOf r, wire ++ [r]) :=
  ⟨r, by rw [hx, ha]⟩

/-- C4: the mutating operations neither swallow nor alter errors. For `Clone`,
`Delete`, `Start`, `Stop` and `Resize` with any arguments, and for `Create` and
`SetConfig` on a config containing both `node` and `vmid`, the call puts one
request `r` on the wire and returns exactly what the transport answers to `r`:
an error if and only if the transport returned one, and then that very error.
`Start` and `Stop` take no power state: they are forwarded whatever it is. -/
theorem mutating_ops_return_transport_answer (qemu : Qemu) (name : String)
    (templatePlace targetPlace : QemuPlace) (vmId : Int) (disk size : String)
    (qemuConfig : QemuConfig) (wire : Wire)
    (hnode : "node" ∈ qemuConfig.keys) (hvmid : "vmid" ∈ qemuConfig.keys) :
    (∃ r, qemu.Clone name templatePlace targetPlace wire
      = (qemu.node.cluster.errorOf r, wire ++ [r])) ∧
    (∃ r, qemu.Delete vmId wire = (qemu.node.cluster.errorOf r, wire ++ [r])) ∧
    (∃ r, qemu.Start vmId wire = (qemu.node.cluster.errorOf r, wire ++ [r])) ∧
    (∃ r, qemu.Stop vmId wire = (qemu.node.cluster.errorOf r, wire ++ [r])) ∧
    (∃ r, qemu.Resize vmId disk size wire = (qemu.node.cluster.errorOf r, wire ++ [r])) ∧
    (∃ r, qemu.Create qemuConfig wire = (qemu.node.cluster.errorOf r, wire ++ [r])) ∧
    (∃ r, qemu.SetConfig qemuConfig wire = (qemu.node.cluster.errorOf r, wire ++ [r])) := by
  have hc := checkQemuConfig_of_mem qemuConfig hnode hvmid
  refine ⟨?_, ?_, ?_, ?_, ?_, ?_, ?_⟩
  · exact answer_of_eq _ _ _ _ _ (clone_eq qemu name templatePlace targetPlace wire) rfl
  · exact answer_of_eq _ _ _ _ _ (delete_eq qemu vmId wire) rfl
  · exact answer_of_eq _ _ _ _ _ (start_eq qemu vmId wire) rfl
  · exact answer_of_eq _ _ _ _ _ (stop_eq qemu vmId wire) rfl
  · exact answer_of_eq _ _ _ _ _ (resize_eq qemu vmId disk size wire) rfl
  · exact answer_of_eq _ _ _ _ _ (create_valid qemu qemuConfig wire hc) rfl
  · exact answer_of_eq _ _ _ _ _ (setConfig_valid qemu qemuConfig wire hc) rfl

theorem mutating_ops_return_transport_answer_witness :
    ("node" ∈ (QemuConfig.doc [("node", Value.str "pve1"), ("vmid", Value.int 100)]).keys ∧
      "vmid" ∈ (QemuConfig.doc [("node", Value.str "pve1"), ("vmid", Value.int 100)]).keys) ∧
    (∃ r, onPve1Refused.Create
        (QemuConfig.doc [("node", Value.str "pve1"), ("vmid", Value.int 100)]) []
      = (onPve1Refused.node.cluster.errorOf r, [] ++ [r])) ∧
    (∃ r, onPve1Refused.Stop 100 [] = (onPve1Refused.node.cluster.errorOf r, [] ++ [r])) :=
  have h := mutating_ops_return_transport_answer onPve1Refused "web" ⟨"main", "pve1", 9000⟩
    ⟨"main", "pve2", 100⟩ 100 "scsi0" "40G"
    (QemuConfig.doc [("node", Value.str "pve1"), ("vmid", Value.int 100)]) []
    (by decide) (by decide)
  ⟨⟨by decide, by decide⟩, h.2.2.2.2.2.1, h.2.2.2.1⟩

/-! ### Resize -/

/-- C3: for every vmId, disk slot and size string, `Resize` puts exactly one
request on the wire, a PUT at `/nodes/{node}/qemu/{vmId}/resize` whose body
holds the disk slot and the size string verbatim, and returns what the
transport answers to it: no error when the transport accepts, and an error
only when the transport returns one (the size string is neither parsed nor
rejected locally). With disk `scsi0` and size `40G` on VM 100 of node `pve1`
the body reads `{"node":"pve1", "vmid":"100", "disk":"scsi0", "size":"40G"}`. -/
theorem resize_forwards_disk_and_size (qemu : Qemu) (vmId : Int) (disk size : String)
    (wire : Wire) :
    (qemu.Resize vmId disk size wire).2 =
      wire ++ [⟨Method.PUT, "/nodes/" ++ qemu.node.name ++ "/qemu/" ++ verbD vmId ++ "/resize",
        Payload.text ("\x7b\"node\":\"" ++ qemu.node.name ++ "\", \"vmid\":\"" ++ verbD vmId
          ++ "\", \"disk\":\"" ++ disk ++ "\", \"size\":\"" ++ size ++ "\"\x7d")⟩] ∧
    (qemu.Resize vmId disk size wire).1 =
      qemu.node.cluster.put ("/nodes/" ++ qemu.node.name ++ "/qemu/" ++ verbD vmId ++ "/resize")
        (Payload.text ("\x7b\"node\":\"" ++ qemu.node.name ++ "\", \"vmid\":\"" ++ verbD vmId
          ++ "\", \"disk\":\"" ++ disk ++ "\", \"size\":\"" ++ size ++ "\"\x7d")) ∧
    (qemu.node.cluster.put ("/nodes/" ++ qemu.node.name ++ "/qemu/" ++ verbD vmId ++ "/resize")
        (Payload.text ("\x7b\"node\":\"" ++ qemu.node.name ++ "\", \"vmid\":\"" ++ verbD vmId
          ++ "\", \"disk\":\"" ++ disk ++ "\", \"size\":\"" ++ size ++ "\"\x7d")) = none →
      (qemu.Resize vmId disk size wire).1 = none) ∧
    onPve1.Resize 100 "scsi0" "40G" [] =
      (none, [⟨Method.PUT, "/nodes/pve1/qemu/100/resize",
        Payload.text
          "\x7b\"node\":\"pve1\", \"vmid\":\"100\", \"disk\":\"scsi0\", \"size\":\"40G\"\x7d"⟩]) := by
  refine ⟨by rw [resize_eq], by rw [resize_eq], ?_, ?_⟩
  · intro h
    rw [resize_eq]
    exact h
  · decide

/-! ### Clone -/

/-- C2, as the code has it: for every name, source placement and target
placement, `Clone` puts a single POST on the wire. The request is addressed to
the source VM: its path is `/nodes/{source.node}/qemu/{source.vmId}/clone`,
which does not change with the target placement, with the source's cluster or
with the node the client is bound to. Its body designates `target.node` as the
destination node (`target`) and `target.vmId` as the id of the new VM
(`newid`), and asks for a full clone (`full` is true) named `name`; the body
does not change with the cluster and node of the source placement. -/
theorem clone_posts_to_source_designating_target (qemu : Qemu) (name : String)
    (templatePlace targetPlace : QemuPlace) (wire : Wire) :
    (qemu.Clone name templatePlace targetPlace wire).2 =
      wire ++ [⟨Method.POST,
        "/nodes/" ++ templatePlace.Node ++ "/qemu/" ++ verbD templatePlace.VmId ++ "/clone",
        Payload.text ("\x7b\"vmid\":\"" ++ verbD templatePlace.VmId ++ "\", \"newid\":\""
          ++ verbD targetPlace.VmId ++ "\", \"name\":\"" ++ name ++ "\", \"target\":\""
          ++ targetPlace.Node ++ "\", \"full\":true\x7d")⟩] ∧
    (∀ (other : Qemu) (cluster : String) (target : QemuPlace),
      ((other.Clone name ⟨cluster, templatePlace.Node, templatePlace.VmId⟩ target wire).2).map
          Request.apiPath
        = ((qemu.Clone name templatePlace targetPlace wire).2).map Request.apiPath) ∧
    (∀ (other : Qemu) (cluster node : String),
      ((other.Clone name ⟨cluster, node, templatePlace.VmId⟩ targetPlace wire).2).map Request.data
        = ((qemu.Clone name templatePlace targetPlace wire).2).map Request.data) := by
  refine ⟨by rw [clone_eq], ?_, ?_⟩
  · intro other cluster target
    rw [clone_eq, clone_eq]
    simp only [List.map_append, List.map_cons, List.map_nil]
  · intro other cluster node
    rw [clone_eq, clone_eq]
    simp only [List.map_append, List.map_cons, List.map_nil]

/-- C2 as stated fails: cloning VM 9000 of node `pve1` to VM 100 on node `pve2`
sends the one request to `/nodes/pve1/qemu/9000/clone`, the source VM, and not
to node `pve2` with id 100; and the path does depend on the source placement's
node: with the source on `pve7` it is `/nodes/pve7/qemu/9000/clone`. -/
theorem clone_not_addressed_to_target_node :
    onPve1.Clone "web" ⟨"main", "pve1", 9000⟩ ⟨"main", "pve2", 100⟩ [] =
      (none, [⟨Method.POST, "/nodes/pve1/qemu/9000/clone",
        Payload.text ("\x7b\"vmid\":\"9000\", \"newid\":\"100\", \"name\":\"web\", "
          ++ "\"target\":\"pve2\", \"full\":true\x7d")⟩]) ∧
    "/nodes/pve1/qemu/9000/clone" ≠ "/nodes/pve2/qemu/100/clone" ∧
    ((onPve1.Clone "web" ⟨"main", "pve7", 9000⟩ ⟨"main", "pve2", 100⟩ []).2).map Request.apiPath
      = ["/nodes/pve7/qemu/9000/clone"] ∧
    ((onPve1.Clone "web" ⟨"main", "pve7", 9000⟩ ⟨"main", "pve2", 100⟩ []).2).map Request.apiPath
      ≠ ((onPve1.Clone "web" ⟨"main", "pve1", 9000⟩ ⟨"main", "pve2", 100⟩ []).2).map
          Request.apiPath := by
  refine ⟨by decide, by decide, by decide, by decide⟩

/-! ### Create -/

/-- C7, as the code has it: for every config document containing both `node`
and `vmid`, `Create` puts a single POST on the wire, addressed to the node the
client is bound to (path `/nodes/{qemu.node.name}/qemu`) whatever the document
holds under `node`, and its body is the config document unchanged, which
carries `node` and `vmid`. -/
theorem create_addresses_bound_node (qemu : Qemu) (qemuConfig : QemuConfig) (wire : Wire)
    (hnode : "node" ∈ qemuConfig.keys) (hvmid : "vmid" ∈ qemuConfig.keys) :
    (qemu.Create qemuConfig wire).2 =
      wire ++ [⟨Method.POST, "/nodes/" ++ qemu.node.name ++ "/qemu",
        Payload.config qemuConfig⟩] ∧
    (∃ n v, qemuConfig.get "node" = some n ∧ qemuConfig.get "vmid" = some v) := by
  have hc := checkQemuConfig_of_mem qemuConfig hnode hvmid
  refine ⟨by rw [create_valid qemu qemuConfig wire hc], ?_⟩
  obtain ⟨n, hn⟩ := (get_isSome_iff qemuConfig "node").mpr hnode
  obtain ⟨v, hv⟩ := (get_isSome_iff qemuConfig "vmid").mpr hvmid
  exact ⟨n, v, hn, hv⟩

theorem create_addresses_bound_node_witness :
    ("node" ∈ (QemuConfig.doc [("node", Value.str "pve2"), ("vmid", Value.int 100)]).keys ∧
      "vmid" ∈ (QemuConfig.doc [("node", Value.str "pve2"), ("vmid", Value.int 100)]).keys) ∧
    (onPve1.Create (QemuConfig.doc [("node", Value.str "pve2"), ("vmid", Value.int 100)]) []).2 =
      [] ++ [⟨Method.POST, "/nodes/" ++ onPve1.node.name ++ "/qemu",
        Payload.config (QemuConfig.doc [("node", Value.str "pve2"), ("vmid", Value.int 100)])⟩] :=
  ⟨⟨by decide, by decide⟩,
    (create_addresses_bound_node onPve1
      (QemuConfig.doc [("node", Value.str "pve2"), ("vmid", Value.int 100)]) []
      (by decide) (by decide)).1⟩

/-- C7 as stated fails: a client bound to node `pve1` that creates the document
`{"node":"pve2","vmid":100}` sends its one request to `/nodes/pve1/qemu`; no
request goes to `/nodes/pve2/qemu`, the node the document names. -/
theorem create_not_addressed_to_config_node :
    (QemuConfig.doc [("node", Value.str "pve2"), ("vmid", Value.int 100)]).get "node"
      = some (Value.str "pve2") ∧
    onPve1.Create (QemuConfig.doc [("node", Value.str "pve2"), ("vmid", Value.int 100)]) [] =
      (none, [⟨Method.POST, "/nodes/pve1/qemu",
        Payload.config (QemuConfig.doc [("node", Value.str "pve2"), ("vmid", Value.int 100)])⟩]) ∧
    ¬ ∃ r, r ∈ (onPve1.Create
        (QemuConfig.doc [("node", Value.str "pve2"), ("vmid", Value.int 100)]) []).2 ∧
      r.apiPath = "/nodes/" ++ "pve2" ++ "/qemu" := by
  refine ⟨by decide, by decide, ?_⟩
  rintro ⟨r, hr, hpath⟩
  have hw : (onPve1.Create
      (QemuConfig.doc [("node", Value.str "pve2"), ("vmid", Value.int 100)]) []).2 =
      [⟨Method.POST, "/nodes/pve1/qemu",
        Payload.config (QemuConfig.doc [("node", Value.str "pve2"), ("vmid", Value.int 100)])⟩] := by
    decide
  rw [hw, List.mem_singleton] at hr
  subst hr
  revert hpath
  decide

/-! ### The read operations -/

theorem getConfig_result (qemu : Qemu) (json : Json) (vmId : Int) (wire : Wire) :
    (qemu.GetConfig json vmId wire).1 =
      match qemu.node.cluster.get
          ("/nodes/" ++ qemu.node.name ++ "/qemu/" ++ verbD vmId ++ "/config")
          (Payload.text ("\x7b\"node\":\"" ++ qemu.node.name ++ "\", \"vmid\":\"" ++ verbD vmId
            ++ "\"\x7d")) with
      | .error err => ((QemuConfig.nil : QemuConfig), some err)
      | .ok bytes =>
        match json.unmarshalConfig bytes with
        | .error err => (QemuConfig.nil, some err)
        | .ok resp => (resp.Data, none) := by
  simp only [Qemu.GetConfig, Cluster.GetReq]
  cases qemu.node.cluster.get
      ("/nodes/" ++ qemu.node.name ++ "/qemu/" ++ verbD vmId ++ "/config")
      (Payload.text ("\x7b\"node\":\"" ++ qemu.node.name ++ "\", \"vmid\":\"" ++ verbD vmId
        ++ "\"\x7d")) with
  | error err => rfl
  | ok bytes =>
    simp only
    cases json.unmarshalConfig bytes <;> rfl

theorem getConfig_contract (qemu : Qemu) (json : Json) (vmId : Int) (wire : Wire) :
    ∃ r, (qemu.GetConfig json vmId wire).2 = wire ++ [r] ∧ r.method = Method.GET ∧
      (∀ err, qemu.node.cluster.get r.apiPath r.data = .error err →
        (qemu.GetConfig json vmId wire).1 = (QemuConfig.nil, some err)) ∧
      (∀ bytes err, qemu.node.cluster.get r.apiPath r.data = .ok bytes →
        json.unmarshalConfig bytes = .error err →
        (qemu.GetConfig json vmId wire).1 = (QemuConfig.nil, some err)) ∧
      (∀ bytes resp, qemu.node.cluster.get r.apiPath r.data = .ok bytes →
        json.unmarshalConfig bytes = .ok resp →
        (qemu.GetConfig json vmId wire).1 = (resp.Data, none)) ∧
      ((qemu.GetConfig json vmId wire).1.2 ≠ none ↔
        (∃ err, qemu.node.cluster.get r.apiPath r.data = .error err) ∨
        (∃ bytes err, qemu.node.cluster.get r.apiPath r.data = .ok bytes ∧
          json.unmarshalConfig bytes = .error err)) := by
  refine ⟨_, getConfig_wire qemu json vmId wire, rfl, ?_, ?_, ?_, ?_⟩
  · intro err h
    rw [getConfig_result]
    simp only at h
    rw [h]
  · intro bytes err h hd
    rw [getConfig_result]
    simp only at h
    rw [h]
    simp only
    rw [hd]
  · intro bytes resp h hd
    rw [getConfig_result]
    simp only at h
    rw [h]
    simp only
    rw [hd]
  · rw [getConfig_result]
    simp only
    cases hg : qemu.node.cluster.get
        ("/nodes/" ++ qemu.node.name ++ "/qemu/" ++ verbD vmId ++ "/config")
        (Payload.text ("\x7b\"node\":\"" ++ qemu.node.name ++ "\", \"vmid\":\"" ++ verbD vmId
          ++ "\"\x7d")) with
    | error err => simp
    | ok bytes =>
      cases hd : json.unmarshalConfig bytes with
      | error err => simp [hd]
      | ok resp => simp [hd]

theorem getPendingConfig_result (qemu : Qemu) (json : Json) (vmId : Int) (wire : Wire) :
    (qemu.GetPendingConfig json vmId wire).1 =
      match qemu.node.cluster.get
          ("/nodes/" ++ qemu.node.name ++ "/qemu/" ++ verbD vmId ++ "/pending")
          (Payload.text ("\x7b\"node\":\"" ++ qemu.node.name ++ "\", \"vmid\":\"" ++ verbD vmId
            ++ "\"\x7d")) with
      | .error err => (([] : List QemuPendingConfig), some err)
      | .ok bytes =>
        match json.unmarshalPending bytes with
        | .error err => ([], some err)
        | .ok resp => (resp.Data, none) := by
  simp only [Qemu.GetPendingConfig, Cluster.GetReq]
  cases qemu.node.cluster.get
      ("/nodes/" ++ qemu.node.name ++ "/qemu/" ++ verbD vmId ++ "/pending")
      (Payload.text ("\x7b\"node\":\"" ++ qemu.node.name ++ "\", \"vmid\":\"" ++ verbD vmId
        ++ "\"\x7d")) with
  | error err => rfl
  | ok bytes =>
    simp only
    cases json.unmarshalPending bytes <;> rfl

theorem getPendingConfig_contract (qemu : Qemu) (json : Json) (vmId : Int) (wire : Wire) :
    ∃ r, (qemu.GetPendingConfig json vmId wire).2 = wire ++ [r] ∧ r.method = Method.GET ∧
      (∀ err, qemu.node.cluster.get r.apiPath r.data = .error err →
        (qemu.GetPendingConfig json vmId wire).1 = ([], some err)) ∧
      (∀ bytes err, qemu.node.cluster.get r.apiPath r.data = .ok bytes →
        json.unmarshalPending bytes = .error err →
        (qemu.GetPendingConfig json vmId wire).1 = ([], some err)) ∧
      (∀ bytes resp, qemu.node.cluster.get r.apiPath r.data = .ok bytes →
        json.unmarshalPending bytes = .ok resp →
        (qemu.GetPendingConfig json vmId wire).1 = (resp.Data, none)) ∧
      ((qemu.GetPendingConfig json vmId wire).1.2 ≠ none ↔
        (∃ err, qemu.node.cluster.get r.apiPath r.data = .error err) ∨
        (∃ bytes err, qemu.node.cluster.get r.apiPath r.data = .ok bytes ∧
          json.unmarshalPending bytes = .error err)) := by
  refine ⟨_, getPendingConfig_wire qemu json vmId wire, rfl, ?_, ?_, ?_, ?_⟩
  · intro err h
    rw [getPendingConfig_result]
    simp only at h
    rw [h]
  · intro bytes err h hd
    rw [getPendingConfig_result]
    simp only at h
    rw [h]
    simp only
    rw [hd]
  · intro bytes resp h hd
    rw [getPendingConfig_result]
    simp only at h
    rw [h]
    simp only
    rw [hd]
  · rw [getPendingConfig_result]
    simp only
    cases hg : qemu.node.cluster.get
        ("/nodes/" ++ qemu.node.name ++ "/qemu/" ++ verbD vmId ++ "/pending")
        (Payload.text ("\x7b\"node\":\"" ++ qemu.node.name ++ "\", \"vmid\":\"" ++ verbD vmId
          ++ "\"\x7d")) with
    | error err => simp
    | ok bytes =>
      cases hd : json.unmarshalPending bytes with
      | error err => simp [hd]
      | ok resp => simp [hd]

theorem getStatus_result (qemu : Qemu) (json : Json) (vmId : Int) (wire : Wire) :
    (qemu.GetStatus json vmId wire).1 =
      match qemu.node.cluster.get
          ("/nodes/" ++ qemu.node.name ++ "/qemu/" ++ verbD vmId ++ "/status/current")
          (Payload.text ("\x7b\"node\":\"" ++ qemu.node.name ++ "\", \"vmid\":\"" ++ verbD vmId
            ++ "\"\x7d")) with
      | .error err => ((QemuStatus.zero : QemuStatus), some err)
      | .ok bytes =>
        match json.unmarshalStatus bytes with
        | .error err => (QemuStatus.zero, some err)
        | .ok resp => (resp, none) := by
  simp only [Qemu.GetStatus, Cluster.GetReq]
  cases qemu.node.cluster.get
      ("/nodes/" ++ qemu.node.name ++ "/qemu/" ++ verbD vmId ++ "/status/current")
      (Payload.text ("\x7b\"node\":\"" ++ qemu.node.name ++ "\", \"vmid\":\"" ++ verbD vmId
        ++ "\"\x7d")) with
  | error err => rfl
  | ok bytes =>
    simp only
    cases json.unmarshalStatus bytes <;> rfl

theorem getStatus_contract (qemu : Qemu) (json : Json) (vmId : Int) (wire : Wire) :
    ∃ r, (qemu.GetStatus json vmId wire).2 = wire ++ [r] ∧ r.method = Method.GET ∧
      (∀ err, qemu.node.cluster.get r.apiPath r.data = .error err →
        (qemu.GetStatus json vmId wire).1 = (QemuStatus.zero, some err)) ∧
      (∀ bytes err, qemu.node.cluster.get r.apiPath r.data = .ok bytes →
        json.unmarshalStatus bytes = .error err →
        (qemu.GetStatus json vmId wire).1 = (QemuStatus.zero, some err)) ∧
      (∀ bytes resp, qemu.node.cluster.get r.apiPath r.data = .ok bytes →
        json.unmarshalStatus bytes = .ok resp →
        (qemu.GetStatus json vmId wire).1 = (resp, none)) ∧
      ((qemu.GetStatus json vmId wire).1.2 ≠ none ↔
        (∃ err, qemu.node.cluster.get r.apiPath r.data = .error err) ∨
        (∃ bytes err, qemu.node.cluster.get r.apiPath r.data = .ok bytes ∧
          json.unmarshalStatus bytes = .error err)) := by
  refine ⟨_, getStatus_wire qemu json vmId wire, rfl, ?_, ?_, ?_, ?_⟩
  · intro err h
    rw [getStatus_result]
    simp only at h
    rw [h]
  · intro bytes err h hd
    rw [getStatus_result]
    simp only at h
    rw [h]
    simp only
    rw [hd]
  · intro bytes resp h hd
    rw [getStatus_result]
    simp only at h
    rw [h]
    simp only
    rw [hd]
  · rw [getStatus_result]
    simp only
    cases hg : qemu.node.cluster.get
        ("/nodes/" ++ qemu.node.name ++ "/qemu/" ++ verbD vmId ++ "/status/current")
        (Payload.text ("\x7b\"node\":\"" ++ qemu.node.name ++ "\", \"vmid\":\"" ++ verbD vmId
          ++ "\"\x7d")) with
    | error err => simp
    | ok bytes =>
      cases hd : json.unmarshalStatus bytes with
      | error err => simp [hd]
      | ok resp => simp [hd]

/-- C5: `GetConfig`, `GetPendingConfig` and `GetStatus` each send one GET `r` and
fail if and only if the transport fails on `r` or the bytes it answered do not
decode. On either failure they return that very error together with an empty
result (the nil config document, the empty pending list, the zero-valued status
snapshot); on success they return the decoded payload (the `Data` of the
decoded response, the whole snapshot for `GetStatus`) and no error. -/
theorem read_ops_fail_iff_transport_or_decode_fails (qemu : Qemu) (json : Json) (vmId : Int)
    (wire : Wire) :
    (∃ r, (qemu.GetConfig json vmId wire).2 = wire ++ [r] ∧ r.method = Method.GET ∧
      (∀ err, qemu.node.cluster.get r.apiPath r.data = .error err →
        (qemu.GetConfig json vmId wire).1 = (QemuConfig.nil, some err)) ∧
      (∀ bytes err, qemu.node.cluster.get r.apiPath r.data = .ok bytes →
        json.unmarshalConfig bytes = .error err →
        (qemu.GetConfig json vmId wire).1 = (QemuConfig.nil, some err)) ∧
      (∀ bytes resp, qemu.node.cluster.get r.apiPath r.data = .ok bytes →
        json.unmarshalConfig bytes = .ok resp →
        (qemu.GetConfig json vmId wire).1 = (resp.Data, none)) ∧
      ((qemu.GetConfig json vmId wire).1.2 ≠ none ↔
        (∃ err, qemu.node.cluster.get r.apiPath r.data = .error err) ∨
        (∃ bytes err, qemu.node.cluster.get r.apiPath r.data = .ok bytes ∧
          json.unmarshalConfig bytes = .error err))) ∧
    (∃ r, (qemu.GetPendingConfig json vmId wire).2 = wire ++ [r] ∧ r.method = Method.GET ∧
      (∀ err, qemu.node.cluster.get r.apiPath r.data = .error err →
        (qemu.GetPendingConfig json vmId wire).1 = ([], some err)) ∧
      (∀ bytes err, qemu.node.cluster.get r.apiPath r.data = .ok bytes →
        json.unmarshalPending bytes = .error err →
        (qemu.GetPendingConfig json vmId wire).1 = ([], some err)) ∧
      (∀ bytes resp, qemu.node.cluster.get r.apiPath r.data = .ok bytes →
        json.unmarshalPending bytes = .ok resp →
        (qemu.GetPendingConfig json vmId wire).1 = (resp.Data, none)) ∧
      ((qemu.GetPendingConfig json vmId wire).1.2 ≠ none ↔
        (∃ err, qemu.node.cluster.get r.apiPath r.data = .error err) ∨
        (∃ bytes err, qemu.node.cluster.get r.apiPath r.data = .ok bytes ∧
          json.unmarshalPending bytes = .error err))) ∧
    (∃ r, (qemu.GetStatus json vmId wire).2 = wire ++ [r] ∧ r.method = Method.GET ∧
      (∀ err, qemu.node.cluster.get r.apiPath r.data = .error err →
        (qemu.GetStatus json vmId wire).1 = (QemuStatus.zero, some err)) ∧
      (∀ bytes err, qemu.node.cluster.get r.apiPath r.data = .ok bytes →
        json.unmarshalStatus bytes = .error err →
        (qemu.GetStatus json vmId wire).1 = (QemuStatus.zero, some err)) ∧
      (∀ bytes resp, qemu.node.cluster.get r.apiPath r.data = .ok bytes →
        json.unmarshalStatus bytes = .ok resp →
        (qemu.GetStatus json vmId wire).1 = (resp, none)) ∧
      ((qemu.GetStatus json vmId wire).1.2 ≠ none ↔
        (∃ err, qemu.node.cluster.get r.apiPath r.data = .error err) ∨
        (∃ bytes err, qemu.node.cluster.get r.apiPath r.data = .ok bytes ∧
          json.unmarshalStatus bytes = .error err))) :=
  ⟨getConfig_contract qemu json vmId wire, getPendingConfig_contract qemu json vmId wire,
    getStatus_contract qemu json vmId wire⟩

/-! ### Request paths -/

/-- The paths of the requests: `Create` uses `/nodes/{node}/qemu`, `Delete`
`/nodes/{node}/qemu/{vmid}`, and `SetConfig`, `GetConfig`, `GetPendingConfig`,
`Start`, `Stop`, `GetStatus`, `Resize` and `Clone` use
`/nodes/{node}/qemu/{vmid}/` followed by `config`, `config`, `pending`,
`status/start`, `status/stop`, `status/current`, `resize` and `clone`; `{node}`
is the node the client is bound to (for `Clone` the node of the source
placement) and `{vmid}` the decimal numeral of the VM id (for `Clone` of the
source placement; for `SetConfig` of the integer the document holds under
`vmid`). -/
theorem lifecycle_request_paths (qemu : Qemu) (json : Json) (name : String)
    (templatePlace targetPlace : QemuPlace) (vmId : Int) (disk size : String)
    (qemuConfig : QemuConfig) (n : Int) (wire : Wire)
    (hnode : "node" ∈ qemuConfig.keys) (hvmid : qemuConfig.get "vmid" = some (Value.int n)) :
    ((qemu.Create qemuConfig wire).2).map Request.apiPath =
      wire.map Request.apiPath ++ ["/nodes/" ++ qemu.node.name ++ "/qemu"] ∧
    ((qemu.Delete vmId wire).2).map Request.apiPath =
      wire.map Request.apiPath ++ ["/nodes/" ++ qemu.node.name ++ "/qemu/" ++ verbD vmId] ∧
    ((qemu.SetConfig qemuConfig wire).2).map Request.apiPath =
      wire.map Request.apiPath
        ++ ["/nodes/" ++ qemu.node.name ++ "/qemu/" ++ verbD n ++ "/config"] ∧
    ((qemu.GetConfig json vmId wire).2).map Request.apiPath =
      wire.map Request.apiPath
        ++ ["/nodes/" ++ qemu.node.name ++ "/qemu/" ++ verbD vmId ++ "/config"] ∧
    ((qemu.GetPendingConfig json vmId wire).2).map Request.apiPath =
      wire.map Request.apiPath
        ++ ["/nodes/" ++ qemu.node.name ++ "/qemu/" ++ verbD vmId ++ "/pending"] ∧
    ((qemu.Start vmId wire).2).map Request.apiPath =
      wire.map Request.apiPath
        ++ ["/nodes/" ++ qemu.node.name ++ "/qemu/" ++ verbD vmId ++ "/status/start"] ∧
    ((qemu.Stop vmId wire).2).map Request.apiPath =
      wire.map Request.apiPath
        ++ ["/nodes/" ++ qemu.node.name ++ "/qemu/" ++ verbD vmId ++ "/status/stop"] ∧
    ((qemu.GetStatus json vmId wire).2).map Request.apiPath =
      wire.map Request.apiPath
        ++ ["/nodes/" ++ qemu.node.name ++ "/qemu/" ++ verbD vmId ++ "/status/current"] ∧
    ((qemu.Resize vmId disk size wire).2).map Request.apiPath =
      wire.map Request.apiPath
        ++ ["/nodes/" ++ qemu.node.name ++ "/qemu/" ++ verbD vmId ++ "/resize"] ∧
    ((qemu.Clone name templatePlace targetPlace wire).2).map Request.apiPath =
      wire.map Request.apiPath
        ++ ["/nodes/" ++ templatePlace.Node ++ "/qemu/" ++ verbD templatePlace.VmId
          ++ "/clone"] := by
  have hv : "vmid" ∈ qemuConfig.keys := (get_isSome_iff qemuConfig "vmid").mp ⟨_, hvmid⟩
  have hc := checkQemuConfig_of_mem qemuConfig hnode hv
  have hidx : (qemuConfig.index "vmid").verbD = verbD n := by
    simp only [QemuConfig.index, hvmid, Option.getD_some, Value.verbD]
  refine ⟨?_, ?_, ?_, ?_, ?_, ?_, ?_, ?_, ?_, ?_⟩
  · rw [create_valid qemu qemuConfig wire hc]
    simp only [List.map_append, List.map_cons, List.map_nil]
  · rw [delete_eq]
    simp only [List.map_append, List.map_cons, List.map_nil]
  · rw [setConfig_valid qemu qemuConfig wire hc, hidx]
    simp only [List.map_append, List.map_cons, List.map_nil]
  · rw [getConfig_wire]
    simp only [List.map_append, List.map_cons, List.map_nil]
  · rw [getPendingConfig_wire]
    simp only [List.map_append, List.map_cons, List.map_nil]
  · rw [start_eq]
    simp only [List.map_append, List.map_cons, List.map_nil]
  · rw [stop_eq]
    simp only [List.map_append, List.map_cons, List.map_nil]
  · rw [getStatus_wire]
    simp only [List.map_append, List.map_cons, List.map_nil]
  · rw [resize_eq]
    simp only [List.map_append, List.map_cons, List.map_nil]
  · rw [clone_eq]
    simp only [List.map_append, List.map_cons, List.map_nil]

/-- C9 at documents whose `vmid` is not an integer. `{"node":"pve1","vmid":"100"}`
passes `checkQemuConfig`, and `SetConfig` sends its request to
`/nodes/pve1/qemu/%!d(string=100)/config`, where the claim has
`/nodes/pve1/qemu/100/config`; with the `float64` 100 that decoding a JSON
number gives, the path is `/nodes/pve1/qemu/%!d(float64=100)/config`. -/
theorem setConfig_path_of_string_vmid :
    checkQemuConfig (QemuConfig.doc [("node", Value.str "pve1"), ("vmid", Value.str "100")])
      = none ∧
    onPve1.SetConfig (QemuConfig.doc [("node", Value.str "pve1"), ("vmid", Value.str "100")]) [] =
      (none, [⟨Method.POST, "/nodes/pve1/qemu/%!d(string=100)/config",
        Payload.config (QemuConfig.doc [("node", Value.str "pve1"), ("vmid", Value.str "100")])⟩]) ∧
    "/nodes/pve1/qemu/%!d(string=100)/config" ≠ "/nodes/pve1/qemu/100/config" ∧
    onPve1.SetConfig
        (QemuConfig.doc [("node", Value.str "pve1"), ("vmid", Value.float64 "100")]) [] =
      (none, [⟨Method.POST, "/nodes/pve1/qemu/%!d(float64=100)/config",
        Payload.config
          (QemuConfig.doc [("node", Value.str "pve1"), ("vmid", Value.float64 "100")])⟩]) := by
  refine ⟨by decide, by decide, by decide, by decide⟩

end Proxmox

namespace V1alpha1

/-- C8: for every desired spec, applied config and status snapshot (and every
last known status and field comparison), whenever the pending list returned by
`GetPendingConfig` is non-empty the projected sync status is
`STATUS_QEMU_OUT_OF_SYNC`, also when the applied config matches the desired
spec field for field. -/
theorem pending_nonempty_projects_out_of_sync
    (matchesSpec : QemuSpec → Proxmox.QemuConfig → Bool) (desired : QemuSpec)
    (applied : Proxmox.QemuConfig) (pending : List Proxmox.QemuPendingConfig)
    (snapshot : Proxmox.QemuStatus) (last : String) (h : pending ≠ []) :
    projectStatus matchesSpec desired (applied, none) (pending, none) (snapshot, none) last
      = STATUS_QEMU_OUT_OF_SYNC := by
  simp [projectStatus, h]

theorem pending_nonempty_projects_out_of_sync_witness :
    ([⟨"memory", Proxmox.Value.int 2048, Proxmox.Value.int 4096⟩] :
        List Proxmox.QemuPendingConfig) ≠ [] ∧
    projectStatus (fun _ _ => true) sampleSpec (sampleApplied, none)
      ([⟨"memory", Proxmox.Value.int 2048, Proxmox.Value.int 4096⟩], none)
      (Proxmox.QemuStatus.zero, none) STATUS_QEMU_SYNCED = STATUS_QEMU_OUT_OF_SYNC :=
  ⟨by decide, pending_nonempty_projects_out_of_sync (fun _ _ => true) sampleSpec sampleApplied
    [⟨"memory", Proxmox.Value.int 2048, Proxmox.Value.int 4096⟩] Proxmox.QemuStatus.zero
    STATUS_QEMU_SYNCED (by decide)⟩

end V1alpha1
